import Mathlib

/-!
Shallow embedding of the obs-websocket WebSocket server core
(src/WebSocketServer.cpp and src/utils/Platform.cpp), together with
theorems checking the natural-language specification against it.

Connection handles are modelled as natural numbers; the session table
(`std::map<connection_hdl, WebSocketSession>`) is an association list with
unique keys; each handler is a pure function from server state and inputs to
a new server state plus an ordered trace of externally visible actions
(sends, closes, log lines, Qt signal emissions).
-/

/-- Wire encodings negotiated per session (WebSocketEncoding in the source). -/
inductive WebSocketEncoding
  | Json
  | MsgPack
deriving DecidableEq, Repr

/-- WebSocket frame opcodes used by the server. -/
inductive Opcode
  | text
  | binary
deriving DecidableEq, Repr

/-- Close codes relevant to this core (WebSocketCloseCode plus the standard
going-away code used on shutdown). -/
inductive CloseCode
  | SessionInvalidated
  | InvalidContentType
  | GoingAway
deriving DecidableEq, Repr

/-- Minimal model of an nlohmann json value, enough to mirror
`eventData.is_object()`. -/
inductive JsonValue
  | null
  | str (s : String)
  | num (n : Int)
  | obj (fields : List (String × JsonValue))

/-- Mirror of `json::is_object()`. -/
def JsonValue.isObject : JsonValue → Bool
  | .obj _ => true
  | _ => false

/-- Modelled from the spec: per-connection session record (the
WebSocketSession class itself is not under src/; its fields and defaults
follow spec section 3: counters start at zero, `isIdentified` false at
creation, `eventSubscriptions` default 0, encoding defaults to Json since an
absent Content-Type means Json). -/
structure Session where
  remoteAddress : String := ""
  connectedAt : Nat := 0
  incomingMessages : Nat := 0
  outgoingMessages : Nat := 0
  encoding : WebSocketEncoding := .Json
  isIdentified : Bool := false
  eventSubscriptions : Nat := 0
  challenge : Option String := none
deriving DecidableEq, Repr

/-- The default-constructed Session, as produced by `_sessions[hdl]` for an
absent key. -/
def Session.mkDefault : Session := {}

/-- Connection handle (opaque transport token, modelled as Nat). -/
abbrev Handle := Nat

/-- The session table: association list keyed by handle, unique keys,
mirroring `std::map<connection_hdl, WebSocketSession>`. -/
abbrev SessionTable := List (Handle × Session)

/-- Map lookup: `_sessions.find(hdl)`. -/
def lookupTable : SessionTable → Handle → Option Session
  | [], _ => none
  | (k, v) :: rest, hdl => if k = hdl then some v else lookupTable rest hdl

/-- Map write-through: the effect of mutating the reference obtained from
`_sessions[hdl]` (updates in place when the key is present, otherwise
appends a new entry). -/
def setTable : SessionTable → Handle → Session → SessionTable
  | [], hdl, sess => [(hdl, sess)]
  | (k, v) :: rest, hdl, sess =>
      if k = hdl then (hdl, sess) :: rest else (k, v) :: setTable rest hdl sess

/-- Map erase: `_sessions.erase(hdl)` (removes the entry with that key). -/
def eraseTable (t : SessionTable) (hdl : Handle) : SessionTable :=
  t.filter (fun p => !(p.1 == hdl))

/-- Modelled from the spec: protocol/plugin version identifier
OBS_WEBSOCKET_VERSION from the generated plugin macros (not under src/). -/
def OBS_WEBSOCKET_VERSION : String := "5.0.0"

/-- Modelled from the spec: RPC version identifier OBS_WEBSOCKET_RPC_VERSION
from the generated plugin macros (not under src/). -/
def OBS_WEBSOCKET_RPC_VERSION : Nat := 1

/-- The `Hello` greeting envelope composed in onOpen; `authentication` is
present as a (challenge, salt) pair exactly when the field was added. -/
structure HelloMessage where
  obsWebSocketVersion : String
  rpcVersion : Nat
  authentication : Option (String × String)
deriving DecidableEq, Repr

/-- The `Event` envelope composed in BroadcastEvent; `eventData` is present
exactly when the input json was an object. -/
structure EventMessage where
  eventType : String
  eventData : Option JsonValue

/-- An outgoing envelope. -/
inductive OutMessage
  | hello (m : HelloMessage)
  | event (m : EventMessage)

/-- A serialized wire payload; `jsonText m` stands for `m.dump()` and
`msgPackBinary m` for `json::to_msgpack(m)` (the byte-level serializers live
in the external nlohmann library, so serialization is kept symbolic but
injective per encoding). -/
inductive Payload
  | jsonText (m : OutMessage)
  | msgPackBinary (m : OutMessage)

/-- One session snapshot handed to Qt signals
(WebSocketServer::WebSocketSessionState without the handle). -/
structure SessionState where
  remoteAddress : String
  connectedAt : Nat
  incomingMessages : Nat
  outgoingMessages : Nat
deriving DecidableEq, Repr

/-- Externally visible actions performed by the server, in program order. -/
inductive ServerAction
  | send (hdl : Handle) (p : Payload) (op : Opcode)
  | close (hdl : Handle) (code : CloseCode) (reason : String)
  | pauseReading (hdl : Handle)
  | logInfo (s : String)
  | logWarning (s : String)
  | emitClientDisconnected (st : SessionState) (closeCode : Nat)
  | emitIdentifiedClientDisconnected (st : SessionState) (closeCode : Nat)
  | stopListening
  | waitForDone
  | pollObservedEmptyTable
  | joinThread

/-- Server state relevant to the embedded handlers (fields of
WebSocketServer captured by Start and mutated by the handlers). -/
structure ServerState where
  listening : Bool
  sessions : SessionTable
  serverPort : Nat
  serverPassword : String
  authenticationRequired : Bool
  authenticationSalt : String
deriving DecidableEq, Repr

/-- The part of WebSocketServer::onOpen after content-type negotiation: if
auth is required, generate and store the challenge; build the `Hello`
envelope; send it using the session's negotiated encoding. -/
def onOpenGreet (s : ServerState) (hdl : Handle) (session : Session)
    (challengeVal : String) : ServerState × List ServerAction :=
  let withChallenge :=
    if s.authenticationRequired then { session with challenge := some challengeVal }
    else session
  let helloMessage : HelloMessage :=
    { obsWebSocketVersion := OBS_WEBSOCKET_VERSION
      rpcVersion := OBS_WEBSOCKET_RPC_VERSION
      authentication :=
        if s.authenticationRequired then some (challengeVal, s.authenticationSalt)
        else none }
  let sendAction :=
    match withChallenge.encoding with
    | .Json => ServerAction.send hdl (Payload.jsonText (.hello helloMessage)) Opcode.text
    | .MsgPack => ServerAction.send hdl (Payload.msgPackBinary (.hello helloMessage)) Opcode.binary
  ({ s with sessions := setTable s.sessions hdl withChallenge }, [sendAction])

/-- WebSocketServer::onOpen. `remoteEndpoint` is `conn->get_remote_endpoint()`,
`now` is `QDateTime::currentSecsSinceEpoch()`, `contentType` is the request
header, and `challengeVal` is the value `Utils::Crypto::GenerateSalt()` would
return for the per-session challenge. Returns the new state and the action
trace. -/
def onOpen (s : ServerState) (hdl : Handle) (remoteEndpoint : String) (now : Nat)
    (contentType : String) (challengeVal : String) : ServerState × List ServerAction :=
  -- `auto &session = _sessions[hdl];` default-constructs when absent
  let session0 := (lookupTable s.sessions hdl).getD Session.mkDefault
  -- session.SetRemoteAddress(...); session.SetConnectedAt(...)
  let session1 := { session0 with remoteAddress := remoteEndpoint, connectedAt := now }
  if contentType = "" then
    onOpenGreet s hdl session1 challengeVal
  else if contentType = "application/json" then
    onOpenGreet s hdl { session1 with encoding := .Json } challengeVal
  else if contentType = "application/msgpack" then
    onOpenGreet s hdl { session1 with encoding := .MsgPack } challengeVal
  else
    -- conn->close(WebSocketCloseCode::InvalidContentType, ...); return;
    ({ s with sessions := setTable s.sessions hdl session1 },
     [ServerAction.close hdl CloseCode.InvalidContentType
        "Your HTTP `Content-Type` header specifies an invalid encoding type."])

/-- WebSocketServer::onClose. `localCloseCode` is `conn->get_local_close_code()`.
Reads the snapshot and erases the entry under the lock, then emits the Qt
signals outside the lock. -/
def onClose (s : ServerState) (hdl : Handle) (localCloseCode : Nat) :
    ServerState × List ServerAction :=
  let session := (lookupTable s.sessions hdl).getD Session.mkDefault
  let isIdentified := session.isIdentified
  let state : SessionState :=
    { remoteAddress := session.remoteAddress
      connectedAt := session.connectedAt
      incomingMessages := session.incomingMessages
      outgoingMessages := session.outgoingMessages }
  let sessions2 := eraseTable s.sessions hdl
  ({ s with sessions := sessions2 },
   ServerAction.emitClientDisconnected state localCloseCode ::
     (if isIdentified then [ServerAction.emitIdentifiedClientDisconnected state localCloseCode]
      else []))

/-- WebSocketServer::onMessage: the body is a single empty statement. -/
def onMessage (s : ServerState) (_hdl : Handle) (_message : String) :
    ServerState × List ServerAction :=
  (s, [])

/-- One iteration of the broadcast fan-out loop for a single table entry:
skip unidentified sessions, test `(EventSubscriptions() & requiredIntent) != 0`,
and send the payload serialized for the session's encoding (text frame for
Json, binary frame for MsgPack). -/
def broadcastSendsTo (requiredIntent : Nat) (eventMessage : EventMessage)
    (entry : Handle × Session) : List ServerAction :=
  if !entry.2.isIdentified then []
  else if Nat.land entry.2.eventSubscriptions requiredIntent ≠ 0 then
    match entry.2.encoding with
    | .Json =>
        [ServerAction.send entry.1 (Payload.jsonText (.event eventMessage)) Opcode.text]
    | .MsgPack =>
        [ServerAction.send entry.1 (Payload.msgPackBinary (.event eventMessage)) Opcode.binary]
  else []

/-- The body of the lambda WebSocketServer::BroadcastEvent hands to
`QtConcurrent::run`: build the Event envelope (attaching eventData only when
it is a json object), then iterate the session table under the lock and send
to qualifying sessions. `sendErr` gives, per handle, the error code the
transport send would report; the source declares `errorCode`, passes it to
`_server.send`, and never reads it afterwards, so the trace is independent
of it and no error is ever logged here. -/
def broadcastEventTask (sessions : SessionTable) (requiredIntent : Nat)
    (eventType : String) (eventData : JsonValue)
    (_sendErr : Handle → Option String) : List ServerAction :=
  let eventMessage : EventMessage :=
    { eventType := eventType
      eventData := if eventData.isObject then some eventData else none }
  sessions.flatMap (broadcastSendsTo requiredIntent eventMessage)

/-- The per-session teardown step in Stop's locked loop: pause reading, then
close with the going-away code; any error is logged at INFO level and the
loop `continue`s with the next session. `pauseErr`/`closeErr` give the error
codes reported by the two transport calls. -/
def stopCloseActions (pauseErr closeErr : Handle → Option String)
    (entry : Handle × Session) : List ServerAction :=
  match pauseErr entry.1 with
  | some e => [ServerAction.pauseReading entry.1, ServerAction.logInfo e]
  | none =>
    match closeErr entry.1 with
    | some e =>
        [ServerAction.pauseReading entry.1,
         ServerAction.close entry.1 CloseCode.GoingAway "Server stopping.",
         ServerAction.logInfo e]
    | none =>
        [ServerAction.pauseReading entry.1,
         ServerAction.close entry.1 CloseCode.GoingAway "Server stopping."]

/-- Deliver a sequence of onClose callbacks (handle, local close code) run by
the I/O thread, collecting the resulting traces in order. -/
def deliverCloses (s : ServerState) (deliveries : List (Handle × Nat)) :
    ServerState × List ServerAction :=
  match deliveries with
  | [] => (s, [])
  | (hdl, code) :: rest =>
    let p1 := onClose s hdl code
    let p2 := deliverCloses p1.1 rest
    (p2.1, p1.2 ++ p2.2)

/-- WebSocketServer::Stop. If not listening, only a warning is logged.
Otherwise: stop listening; under the lock pause+close every session (logging
and continuing past per-session errors); release the lock; wait for the
broadcast thread pool to finish; busy-poll until the session table is empty;
join the I/O thread. The poll is modelled by `deliveries`, the onClose
callbacks the I/O thread runs while Stop waits: Stop returns `some` exactly
when the polling loop terminates, i.e. the table is empty after the
deliveries; `none` models the poll spinning forever. -/
def stop (s : ServerState) (pauseErr closeErr : Handle → Option String)
    (deliveries : List (Handle × Nat)) : Option (ServerState × List ServerAction) :=
  if !s.listening then
    some (s, [ServerAction.logWarning "Call to Stop() but the server is not listening."])
  else
    -- _server.stop_listening()
    let s1 : ServerState := { s with listening := false }
    let closeActs := s1.sessions.flatMap (stopCloseActions pauseErr closeErr)
    let delivered := deliverCloses s1 deliveries
    if delivered.1.sessions.isEmpty then
      some (delivered.1,
        ServerAction.stopListening :: closeActs ++
          ServerAction.waitForDone :: delivered.2 ++
          [ServerAction.pollObservedEmptyTable, ServerAction.joinThread])
    else none

/-- WebSocketServer::GetConnectString: formats
`"obswebsocket|%1:%2|%3"` (address, port, password) when authentication is
required, else `"obswebsocket|%1:%2"`. -/
def getConnectString (s : ServerState) (localAddress : String) : String :=
  if s.authenticationRequired then
    "obswebsocket|" ++ localAddress ++ ":" ++ toString s.serverPort ++ "|" ++ s.serverPassword
  else
    "obswebsocket|" ++ localAddress ++ ":" ++ toString s.serverPort

/-- A QHostAddress as seen by Utils::Platform::GetLocalAddress: its string
form plus the predicates the filter consults (equality with the LocalHost
constants, loopback, link-local, null). -/
structure QHostAddress where
  text : String
  isLocalHost : Bool
  isLocalHostIPv6 : Bool
  isLoopback : Bool
  isLinkLocal : Bool
  isNull : Bool
deriving DecidableEq, Repr

/-- The priority (0 best) GetLocalAddress attributes to a candidate address. -/
def addressPriority (address : String) : Nat :=
  if address.startsWith "192.168.1" || address.startsWith "192.168.0" then 0
  else if address.startsWith "172.16" then 1
  else if address.startsWith "10." then 2
  else 255

/-- Utils::Platform::GetLocalAddress over the interface address list:
filter unusable addresses, return "0.0.0.0" when none remain, else sort the
remainder by priority and return the best one. -/
def getLocalAddress (allAddresses : List QHostAddress) : String :=
  let validAddresses :=
    (allAddresses.filter (fun a =>
      !(a.isLocalHost || a.isLocalHostIPv6 || a.isLoopback || a.isLinkLocal || a.isNull))).map
      (fun a => a.text)
  if validAddresses.length = 0 then "0.0.0.0"
  else
    let preferredAddresses := validAddresses.map (fun a => (a, addressPriority a))
    let sorted := preferredAddresses.mergeSort (fun a b => decide (a.2 ≤ b.2))
    ((sorted.head?).map Prod.fst).getD "0.0.0.0"

/-- Looking up a handle after erasing it finds nothing. -/
theorem lookupTable_eraseTable_self (t : SessionTable) (hdl : Handle) :
    lookupTable (eraseTable t hdl) hdl = none := by
  induction t with
  | nil => rfl
  | cons p rest ih =>
    unfold eraseTable at ih ⊢
    rw [List.filter_cons]
    by_cases h : p.1 = hdl
    · have hc : (!(p.1 == hdl)) = false := by simp [h]
      rw [hc, if_neg Bool.false_ne_true]
      exact ih
    · have hc : (!(p.1 == hdl)) = true := by simp [h]
      rw [if_pos hc]
      obtain ⟨k, v⟩ := p
      simp only at h
      simpa [lookupTable, h] using ih

/-- Erasing an absent handle leaves the table unchanged. -/
theorem eraseTable_of_lookup_none (t : SessionTable) (hdl : Handle)
    (habs : lookupTable t hdl = none) : eraseTable t hdl = t := by
  induction t with
  | nil => rfl
  | cons p rest ih =>
    obtain ⟨k, v⟩ := p
    simp only [lookupTable] at habs
    by_cases h : k = hdl
    · simp [h] at habs
    · rw [if_neg h] at habs
      unfold eraseTable at ih ⊢
      simp only [List.filter_cons]
      have hk : (!((k, v).1 == hdl)) = true := by simp [h]
      rw [if_pos hk]
      exact congrArg _ (ih habs)

/-- Looking up the key just written finds the written session. -/
theorem lookupTable_setTable_self (t : SessionTable) (k : Handle) (v : Session) :
    lookupTable (setTable t k v) k = some v := by
  induction t with
  | nil => simp [setTable, lookupTable]
  | cons p rest ih =>
    by_cases h : p.1 = k
    · simp [setTable, h, lookupTable]
    · obtain ⟨k', v'⟩ := p
      simp only at h
      simp [setTable, h, lookupTable, ih]

/-- In a table with unique keys, two entries with the same key coincide. -/
theorem nodup_keys_mem_unique {t : SessionTable} {k : Handle} {a b : Session}
    (hnodup : (t.map Prod.fst).Nodup) (ha : (k, a) ∈ t) (hb : (k, b) ∈ t) : a = b := by
  induction t with
  | nil => cases ha
  | cons p rest ih =>
    simp only [List.map_cons, List.nodup_cons] at hnodup
    rcases List.mem_cons.mp ha with ha1 | ha1 <;>
      rcases List.mem_cons.mp hb with hb1 | hb1
    · exact congrArg Prod.snd (ha1.trans hb1.symm)
    · exfalso
      have hk : k = p.1 := congrArg Prod.fst ha1
      exact hnodup.1 (hk ▸ List.mem_map.mpr ⟨(k, b), hb1, rfl⟩)
    · exfalso
      have hk : k = p.1 := congrArg Prod.fst hb1
      exact hnodup.1 (hk ▸ List.mem_map.mpr ⟨(k, a), ha1, rfl⟩)
    · exact ih hnodup.2 ha1 hb1

/-- onClose always leaves no table entry for the closed handle. -/
theorem onClose_erases (s : ServerState) (hdl : Handle) (code : Nat) :
    lookupTable (onClose s hdl code).1.sessions hdl = none :=
  lookupTable_eraseTable_self s.sessions hdl

/-- A concrete identified Json session used in witnesses. -/
def identifiedJsonSession : Session :=
  { remoteAddress := "192.168.0.2", connectedAt := 7, incomingMessages := 0,
    outgoingMessages := 0, encoding := .Json, isIdentified := true,
    eventSubscriptions := 1, challenge := none }

/-- A concrete identified MsgPack session used in witnesses. -/
def identifiedMsgPackSession : Session :=
  { remoteAddress := "192.168.0.3", connectedAt := 9, incomingMessages := 0,
    outgoingMessages := 0, encoding := .MsgPack, isIdentified := true,
    eventSubscriptions := 3, challenge := none }

/-- A concrete listening server state with one identified session. -/
def baseState : ServerState :=
  { listening := true, sessions := [(1, identifiedJsonSession)], serverPort := 4455,
    serverPassword := "supersecret", authenticationRequired := false,
    authenticationSalt := "c2FsdA==" }

/-- A concrete listening server state with an empty session table and
authentication required. -/
def emptyState : ServerState :=
  { listening := true, sessions := [], serverPort := 4455,
    serverPassword := "supersecret", authenticationRequired := true,
    authenticationSalt := "c2FsdA==" }

/-- C1: for a connection whose Content-Type header is present but neither
"application/json" nor "application/msgpack", onOpen emits exactly one
action, a close with the InvalidContentType code; in particular it sends
nothing (no greeting); and once the transport delivers the resulting close
(onClose), no Session for that connection remains in the session table. -/
theorem C1_invalid_content_type (s : ServerState) (hdl : Handle) (ep : String)
    (now : Nat) (ct : String) (ch : String) (code : Nat)
    (h1 : ct ≠ "") (h2 : ct ≠ "application/json") (h3 : ct ≠ "application/msgpack") :
    (onOpen s hdl ep now ct ch).2 =
      [ServerAction.close hdl CloseCode.InvalidContentType
        "Your HTTP `Content-Type` header specifies an invalid encoding type."] ∧
    (∀ h p op, ServerAction.send h p op ∉ (onOpen s hdl ep now ct ch).2) ∧
    lookupTable (onClose (onOpen s hdl ep now ct ch).1 hdl code).1.sessions hdl = none := by
  refine ⟨?_, ?_, onClose_erases _ _ _⟩
  · simp [onOpen, h1, h2, h3]
  · intro h p op hmem
    simp [onOpen, h1, h2, h3] at hmem

/-- Witness for C1: a concrete connection presenting Content-Type text/html. -/
theorem C1_invalid_content_type_witness :
    (("text/html" : String) ≠ "" ∧ ("text/html" : String) ≠ "application/json" ∧
      ("text/html" : String) ≠ "application/msgpack") ∧
    ((onOpen baseState 2 "192.168.0.9" 11 "text/html" "chal").2 =
      [ServerAction.close 2 CloseCode.InvalidContentType
        "Your HTTP `Content-Type` header specifies an invalid encoding type."] ∧
     (∀ h p op, ServerAction.send h p op ∉ (onOpen baseState 2 "192.168.0.9" 11 "text/html" "chal").2) ∧
     lookupTable (onClose (onOpen baseState 2 "192.168.0.9" 11 "text/html" "chal").1 2 1000).1.sessions 2 = none) :=
  ⟨⟨by decide, by decide, by decide⟩,
   C1_invalid_content_type baseState 2 "192.168.0.9" 11 "text/html" "chal" 1000
     (by decide) (by decide) (by decide)⟩

/-- C8: onClose removes the handle's table entry after reading a snapshot of
the session's isIdentified, connectedAt, both counters and address; it then
always emits ClientDisconnected carrying that snapshot and the transport's
close code, and emits IdentifiedClientDisconnected (with the same snapshot)
iff the snapshot's isIdentified was true. -/
theorem C8_onClose_snapshot_and_signals (s : ServerState) (hdl : Handle) (code : Nat) :
    (onClose s hdl code).1.sessions = eraseTable s.sessions hdl ∧
    lookupTable (onClose s hdl code).1.sessions hdl = none ∧
    (onClose s hdl code).2 =
      ServerAction.emitClientDisconnected
        { remoteAddress := ((lookupTable s.sessions hdl).getD Session.mkDefault).remoteAddress
          connectedAt := ((lookupTable s.sessions hdl).getD Session.mkDefault).connectedAt
          incomingMessages := ((lookupTable s.sessions hdl).getD Session.mkDefault).incomingMessages
          outgoingMessages := ((lookupTable s.sessions hdl).getD Session.mkDefault).outgoingMessages }
        code ::
        (if ((lookupTable s.sessions hdl).getD Session.mkDefault).isIdentified then
          [ServerAction.emitIdentifiedClientDisconnected
            { remoteAddress := ((lookupTable s.sessions hdl).getD Session.mkDefault).remoteAddress
              connectedAt := ((lookupTable s.sessions hdl).getD Session.mkDefault).connectedAt
              incomingMessages := ((lookupTable s.sessions hdl).getD Session.mkDefault).incomingMessages
              outgoingMessages := ((lookupTable s.sessions hdl).getD Session.mkDefault).outgoingMessages }
            code]
         else []) ∧
    ((∃ st c, ServerAction.emitIdentifiedClientDisconnected st c ∈ (onClose s hdl code).2) ↔
      ((lookupTable s.sessions hdl).getD Session.mkDefault).isIdentified = true) := by
  refine ⟨rfl, onClose_erases s hdl code, rfl, ?_⟩
  constructor
  · rintro ⟨st, c, hmem⟩
    by_cases hid : ((lookupTable s.sessions hdl).getD Session.mkDefault).isIdentified = true
    · exact hid
    · exfalso
      simp only [Bool.not_eq_true] at hid
      simp [onClose, hid] at hmem
  · intro hid
    refine ⟨{ remoteAddress := ((lookupTable s.sessions hdl).getD Session.mkDefault).remoteAddress
              connectedAt := ((lookupTable s.sessions hdl).getD Session.mkDefault).connectedAt
              incomingMessages := ((lookupTable s.sessions hdl).getD Session.mkDefault).incomingMessages
              outgoingMessages := ((lookupTable s.sessions hdl).getD Session.mkDefault).outgoingMessages },
            code, ?_⟩
    simp [onClose, hid]

/-- C10: onClose invoked for a handle with no table entry default-constructs
a fresh Session via the map access, emits ClientDisconnected with the
default-valued snapshot (empty address, zero time and counters), emits no
IdentifiedClientDisconnected (default isIdentified is false), and leaves the
table exactly as it was, with no entry for that handle. -/
theorem C10_onClose_unknown_handle (s : ServerState) (hdl : Handle) (code : Nat)
    (habs : lookupTable s.sessions hdl = none) :
    onClose s hdl code =
      (s, [ServerAction.emitClientDisconnected
            { remoteAddress := "", connectedAt := 0, incomingMessages := 0,
              outgoingMessages := 0 } code]) ∧
    lookupTable (onClose s hdl code).1.sessions hdl = none := by
  refine ⟨?_, onClose_erases s hdl code⟩
  have h2 := eraseTable_of_lookup_none s.sessions hdl habs
  unfold onClose
  rw [habs, h2]
  rfl

/-- Witness for C10: closing handle 5, which has no session, on a concrete
one-session state. -/
theorem C10_onClose_unknown_handle_witness :
    lookupTable baseState.sessions 5 = none ∧
    (onClose baseState 5 1001 =
      (baseState, [ServerAction.emitClientDisconnected
        { remoteAddress := "", connectedAt := 0, incomingMessages := 0,
          outgoingMessages := 0 } 1001]) ∧
     lookupTable (onClose baseState 5 1001).1.sessions 5 = none) :=
  ⟨by decide, C10_onClose_unknown_handle baseState 5 1001 (by decide)⟩

/-- C2 fails on the code: onMessage is an empty handler, so dispatching an
inbound message to session 1 leaves its incomingMessages counter at 0
instead of incrementing it to 1; likewise onOpen sends the greeting to a
fresh connection yet leaves the stored session's outgoingMessages at 0
instead of 1. -/
theorem C2_counterexample :
    (onMessage baseState 1 "some inbound frame").1 = baseState ∧
    (lookupTable (onMessage baseState 1 "some inbound frame").1.sessions 1).map
        Session.incomingMessages = some 0 ∧
    (lookupTable (onMessage baseState 1 "some inbound frame").1.sessions 1).map
        Session.incomingMessages ≠ some 1 ∧
    (∃ p, ServerAction.send 2 p Opcode.text ∈ (onOpen emptyState 2 "192.168.0.9" 11 "" "chal").2) ∧
    (lookupTable (onOpen emptyState 2 "192.168.0.9" 11 "" "chal").1.sessions 2).map
        Session.outgoingMessages = some 0 ∧
    (lookupTable (onOpen emptyState 2 "192.168.0.9" 11 "" "chal").1.sessions 2).map
        Session.outgoingMessages ≠ some 1 := by
  refine ⟨rfl, by decide, by decide, ?_, by decide, by decide⟩
  exact ⟨Payload.jsonText (.hello
    { obsWebSocketVersion := OBS_WEBSOCKET_VERSION
      rpcVersion := OBS_WEBSOCKET_RPC_VERSION
      authentication := some ("chal", "c2FsdA==") }),
    by simp [onOpen, onOpenGreet, emptyState, OBS_WEBSOCKET_VERSION, OBS_WEBSOCKET_RPC_VERSION,
      lookupTable, setTable, Session.mkDefault]⟩

/-- C2 amended: the core performs no counter bookkeeping at all: onMessage
is an empty no-op handler (no state change, no action), and onOpen — which
performs the greeting send — stores a session whose incomingMessages and
outgoingMessages are exactly those of the prior entry (or of the fresh
default-constructed session), unincremented; the broadcast fan-out emits
only send actions and never touches session state. -/
theorem C2_no_counter_updates (s : ServerState) (hdl : Handle) (m : String)
    (ep : String) (now : Nat) (ct ch : String) :
    onMessage s hdl m = (s, []) ∧
    (lookupTable (onOpen s hdl ep now ct ch).1.sessions hdl).map
        (fun ss => (ss.incomingMessages, ss.outgoingMessages)) =
      some (((lookupTable s.sessions hdl).getD Session.mkDefault).incomingMessages,
            ((lookupTable s.sessions hdl).getD Session.mkDefault).outgoingMessages) := by
  refine ⟨rfl, ?_⟩
  have hset : ∀ v : Session, (lookupTable (setTable s.sessions hdl v) hdl).map
      (fun ss => (ss.incomingMessages, ss.outgoingMessages)) =
        some (v.incomingMessages, v.outgoingMessages) := by
    intro v
    rw [lookupTable_setTable_self]
    rfl
  unfold onOpen onOpenGreet
  by_cases h1 : ct = "" <;> by_cases h2 : ct = "application/json" <;>
    by_cases h3 : ct = "application/msgpack" <;>
    by_cases h4 : s.authenticationRequired = true <;>
      simp [h1, h2, h3, h4, hset]

/-- Any action emitted by the broadcast loop body for one entry is a send to
that entry's own handle, emitted only when the session is identified and
subscribed, with the payload and frame type fixed by the session's encoding. -/
theorem mem_broadcastSendsTo {ri : Nat} {em : EventMessage} {entry : Handle × Session}
    {a : ServerAction} (h : a ∈ broadcastSendsTo ri em entry) :
    entry.2.isIdentified = true ∧ Nat.land entry.2.eventSubscriptions ri ≠ 0 ∧
    ((entry.2.encoding = .Json ∧
        a = ServerAction.send entry.1 (Payload.jsonText (.event em)) Opcode.text) ∨
     (entry.2.encoding = .MsgPack ∧
        a = ServerAction.send entry.1 (Payload.msgPackBinary (.event em)) Opcode.binary)) := by
  by_cases hid : entry.2.isIdentified = true
  · by_cases hsub : Nat.land entry.2.eventSubscriptions ri = 0
    · simp [broadcastSendsTo, hid, hsub] at h
    · refine ⟨hid, hsub, ?_⟩
      cases henc : entry.2.encoding with
      | Json =>
        refine Or.inl ⟨rfl, ?_⟩
        simp [broadcastSendsTo, hid, henc] at h
        exact h.2
      | MsgPack =>
        refine Or.inr ⟨rfl, ?_⟩
        simp [broadcastSendsTo, hid, henc] at h
        exact h.2
  · simp only [Bool.not_eq_true] at hid
    simp [broadcastSendsTo, hid] at h

/-- An identified, subscribed session is emitted exactly one send by the
broadcast loop body, with payload and frame type per its encoding. -/
theorem broadcastSendsTo_of_qualifying {ri : Nat} {em : EventMessage} {hdl : Handle}
    {sess : Session} (hid : sess.isIdentified = true)
    (hsub : Nat.land sess.eventSubscriptions ri ≠ 0) :
    broadcastSendsTo ri em (hdl, sess) =
      [match sess.encoding with
       | .Json => ServerAction.send hdl (Payload.jsonText (.event em)) Opcode.text
       | .MsgPack => ServerAction.send hdl (Payload.msgPackBinary (.event em)) Opcode.binary] := by
  cases henc : sess.encoding <;> simp [broadcastSendsTo, hid, hsub, henc]

/-- C3: for a broadcast with required intent ri over a table with unique
keys, a session in the table is sent the event iff it is identified and its
event subscriptions intersect ri; and every send it receives carries the
Event envelope (eventData attached iff the input data is a json object)
serialized for that session's encoding: json text payload on a text frame
for Json, msgpack payload on a binary frame for MsgPack. -/
theorem C3_broadcast_targets (sessions : SessionTable) (ri : Nat) (et : String)
    (ed : JsonValue) (se : Handle → Option String) (hdl : Handle) (sess : Session)
    (hnodup : (sessions.map Prod.fst).Nodup) (hmem : (hdl, sess) ∈ sessions) :
    ((∃ p op, ServerAction.send hdl p op ∈ broadcastEventTask sessions ri et ed se) ↔
      (sess.isIdentified = true ∧ Nat.land sess.eventSubscriptions ri ≠ 0)) ∧
    (∀ p op, ServerAction.send hdl p op ∈ broadcastEventTask sessions ri et ed se →
      (sess.encoding = .Json →
        p = Payload.jsonText (.event (⟨et, if ed.isObject then some ed else none⟩ : EventMessage)) ∧
        op = Opcode.text) ∧
      (sess.encoding = .MsgPack →
        p = Payload.msgPackBinary (.event (⟨et, if ed.isObject then some ed else none⟩ : EventMessage)) ∧
        op = Opcode.binary)) := by
  have hsame : ∀ {p op}, ServerAction.send hdl p op ∈ broadcastEventTask sessions ri et ed se →
      sess.isIdentified = true ∧ Nat.land sess.eventSubscriptions ri ≠ 0 ∧
      ((sess.encoding = .Json ∧
          ServerAction.send hdl p op = ServerAction.send hdl (Payload.jsonText (.event
            (⟨et, if ed.isObject then some ed else none⟩ : EventMessage)))
            Opcode.text) ∨
       (sess.encoding = .MsgPack ∧
          ServerAction.send hdl p op = ServerAction.send hdl (Payload.msgPackBinary (.event
            (⟨et, if ed.isObject then some ed else none⟩ : EventMessage)))
            Opcode.binary)) := by
    intro p op hin
    unfold broadcastEventTask at hin
    rw [List.mem_flatMap] at hin
    obtain ⟨entry, hentry, ha⟩ := hin
    have hchar := mem_broadcastSendsTo ha
    have hkey : entry.1 = hdl := by
      rcases hchar.2.2 with ⟨_, heq⟩ | ⟨_, heq⟩ <;>
        (injection heq with h1 h2 h3; exact h1.symm)
    have hval : entry.2 = sess := by
      apply nodup_keys_mem_unique hnodup _ hmem
      rw [← hkey]
      exact hentry
    rw [hkey, hval] at hchar
    exact hchar
  constructor
  · constructor
    · rintro ⟨p, op, hin⟩
      exact ⟨(hsame hin).1, (hsame hin).2.1⟩
    · rintro ⟨hid, hsub⟩
      have heq := @broadcastSendsTo_of_qualifying ri
        (⟨et, if ed.isObject then some ed else none⟩ : EventMessage) hdl sess hid hsub
      cases henc : sess.encoding with
      | Json =>
        refine ⟨Payload.jsonText (.event (⟨et, if ed.isObject then some ed else none⟩ : EventMessage)), Opcode.text, ?_⟩
        unfold broadcastEventTask
        rw [List.mem_flatMap]
        refine ⟨(hdl, sess), hmem, ?_⟩
        rw [heq, henc]
        exact List.mem_singleton.mpr rfl
      | MsgPack =>
        refine ⟨Payload.msgPackBinary (.event (⟨et, if ed.isObject then some ed else none⟩ : EventMessage)), Opcode.binary, ?_⟩
        unfold broadcastEventTask
        rw [List.mem_flatMap]
        refine ⟨(hdl, sess), hmem, ?_⟩
        rw [heq, henc]
        exact List.mem_singleton.mpr rfl
  · intro p op hin
    have hchar := hsame hin
    constructor
    · intro henc
      rcases hchar.2.2 with ⟨_, heq⟩ | ⟨hbad, _⟩
      · injection heq with h1 h2 h3
        exact ⟨h2, h3⟩
      · rw [henc] at hbad
        cases hbad
    · intro henc
      rcases hchar.2.2 with ⟨hbad, _⟩ | ⟨_, heq⟩
      · rw [henc] at hbad
        cases hbad
      · injection heq with h1 h2 h3
        exact ⟨h2, h3⟩

/-- A concrete table with handles 1 (Json) and 2 (MsgPack), both identified
and subscribed. -/
def twoSessionTable : SessionTable := [(1, identifiedJsonSession), (2, identifiedMsgPackSession)]

/-- Witness for C3: session 1 of a concrete two-session table. -/
theorem C3_broadcast_targets_witness :
    ((twoSessionTable.map Prod.fst).Nodup ∧ (1, identifiedJsonSession) ∈ twoSessionTable) ∧
    (((∃ p op, ServerAction.send 1 p op ∈
        broadcastEventTask twoSessionTable 1 "InputCreated" JsonValue.null (fun _ => none)) ↔
      (identifiedJsonSession.isIdentified = true ∧
        Nat.land identifiedJsonSession.eventSubscriptions 1 ≠ 0)) ∧
     (∀ p op, ServerAction.send 1 p op ∈
        broadcastEventTask twoSessionTable 1 "InputCreated" JsonValue.null (fun _ => none) →
       (identifiedJsonSession.encoding = .Json →
         p = Payload.jsonText (.event (⟨"InputCreated",
           if JsonValue.null.isObject then some JsonValue.null else none⟩ : EventMessage)) ∧
         op = Opcode.text) ∧
       (identifiedJsonSession.encoding = .MsgPack →
         p = Payload.msgPackBinary (.event (⟨"InputCreated",
           if JsonValue.null.isObject then some JsonValue.null else none⟩ : EventMessage)) ∧
         op = Opcode.binary))) :=
  ⟨⟨by decide, by decide⟩,
   C3_broadcast_targets twoSessionTable 1 "InputCreated" JsonValue.null (fun _ => none) 1
     identifiedJsonSession (by decide) (by decide)⟩

/-- The error assignment used against C4: the transport send to session 1
reports an error, sends to other sessions succeed. -/
def failingSendErr : Handle → Option String :=
  fun h => if h = 1 then some "A transport error" else none

/-- C4 fails on the code: with a transport error on session 1's send during
a fan-out over two qualifying sessions, the trace contains no log entry at
all — BroadcastEvent never reads the error code it passes to send — so the
error is not logged; the remaining session 2 is still sent the event. -/
theorem C4_counterexample :
    failingSendErr 1 = some "A transport error" ∧
    (∃ p op, ServerAction.send 1 p op ∈
      broadcastEventTask twoSessionTable 1 "InputCreated" JsonValue.null failingSendErr) ∧
    (∀ a ∈ broadcastEventTask twoSessionTable 1 "InputCreated" JsonValue.null failingSendErr,
      (∀ m, a ≠ ServerAction.logInfo m) ∧ (∀ m, a ≠ ServerAction.logWarning m)) ∧
    (∃ p op, ServerAction.send 2 p op ∈
      broadcastEventTask twoSessionTable 1 "InputCreated" JsonValue.null failingSendErr) := by
  have htrace : broadcastEventTask twoSessionTable 1 "InputCreated" JsonValue.null failingSendErr =
      [ServerAction.send 1 (Payload.jsonText (.event (⟨"InputCreated", none⟩ : EventMessage)))
        Opcode.text,
       ServerAction.send 2 (Payload.msgPackBinary (.event (⟨"InputCreated", none⟩ : EventMessage)))
        Opcode.binary] := rfl
  refine ⟨rfl,
    ⟨Payload.jsonText (.event (⟨"InputCreated", none⟩ : EventMessage)), Opcode.text, ?_⟩, ?_,
    ⟨Payload.msgPackBinary (.event (⟨"InputCreated", none⟩ : EventMessage)), Opcode.binary, ?_⟩⟩
  · rw [htrace]
    exact List.mem_cons_self _ _
  · intro a ha
    rw [htrace] at ha
    simp only [List.mem_cons, List.not_mem_nil, or_false] at ha
    rcases ha with ha | ha <;> rw [ha] <;>
      (refine ⟨fun m h => ?_, fun m h => ?_⟩ <;> cases h)
  · rw [htrace]
    exact List.mem_cons_of_mem _ (List.mem_cons_self _ _)

/-- C4 amended: per-send transport errors are silently ignored rather than
logged — the fan-out trace is independent of the per-send error outcomes and
never contains a log entry — and an error on one session's send indeed never
prevents the remaining sessions from being sent the event: every identified,
subscribed session gets a send regardless of the error outcomes. -/
theorem C4_errors_ignored_fanout_continues (sessions : SessionTable) (ri : Nat)
    (et : String) (ed : JsonValue) (se se2 : Handle → Option String)
    (hdl : Handle) (sess : Session) (hmem : (hdl, sess) ∈ sessions)
    (hid : sess.isIdentified = true) (hsub : Nat.land sess.eventSubscriptions ri ≠ 0) :
    broadcastEventTask sessions ri et ed se = broadcastEventTask sessions ri et ed se2 ∧
    (∀ a ∈ broadcastEventTask sessions ri et ed se,
      (∀ m, a ≠ ServerAction.logInfo m) ∧ (∀ m, a ≠ ServerAction.logWarning m)) ∧
    (∃ p op, ServerAction.send hdl p op ∈ broadcastEventTask sessions ri et ed se) := by
  refine ⟨rfl, ?_, ?_⟩
  · intro a ha
    unfold broadcastEventTask at ha
    rw [List.mem_flatMap] at ha
    obtain ⟨entry, _, hax⟩ := ha
    rcases (mem_broadcastSendsTo hax).2.2 with ⟨_, heq⟩ | ⟨_, heq⟩ <;> rw [heq] <;>
      (refine ⟨fun m h => ?_, fun m h => ?_⟩ <;> cases h)
  · have heq := @broadcastSendsTo_of_qualifying ri
      (⟨et, if ed.isObject then some ed else none⟩ : EventMessage) hdl sess hid hsub
    cases henc : sess.encoding with
    | Json =>
      refine ⟨Payload.jsonText (.event (⟨et, if ed.isObject then some ed else none⟩ :
        EventMessage)), Opcode.text, ?_⟩
      unfold broadcastEventTask
      rw [List.mem_flatMap]
      refine ⟨(hdl, sess), hmem, ?_⟩
      rw [heq, henc]
      exact List.mem_singleton.mpr rfl
    | MsgPack =>
      refine ⟨Payload.msgPackBinary (.event (⟨et, if ed.isObject then some ed else none⟩ :
        EventMessage)), Opcode.binary, ?_⟩
      unfold broadcastEventTask
      rw [List.mem_flatMap]
      refine ⟨(hdl, sess), hmem, ?_⟩
      rw [heq, henc]
      exact List.mem_singleton.mpr rfl

/-- Witness for the amended C4: session 2 of a concrete two-session table,
with a transport error occurring on session 1's send. -/
theorem C4_errors_ignored_witness :
    ((2, identifiedMsgPackSession) ∈ twoSessionTable ∧
      identifiedMsgPackSession.isIdentified = true ∧
      Nat.land identifiedMsgPackSession.eventSubscriptions 1 ≠ 0) ∧
    (broadcastEventTask twoSessionTable 1 "InputCreated" JsonValue.null failingSendErr =
      broadcastEventTask twoSessionTable 1 "InputCreated" JsonValue.null (fun _ => none) ∧
     (∀ a ∈ broadcastEventTask twoSessionTable 1 "InputCreated" JsonValue.null failingSendErr,
       (∀ m, a ≠ ServerAction.logInfo m) ∧ (∀ m, a ≠ ServerAction.logWarning m)) ∧
     (∃ p op, ServerAction.send 2 p op ∈
       broadcastEventTask twoSessionTable 1 "InputCreated" JsonValue.null failingSendErr)) :=
  ⟨⟨by decide, by decide, by decide⟩,
   C4_errors_ignored_fanout_continues twoSessionTable 1 "InputCreated" JsonValue.null
     failingSendErr (fun _ => none) 2 identifiedMsgPackSession (by decide) (by decide) (by decide)⟩

/-- Delivering onClose callbacks never changes the listening flag. -/
theorem deliverCloses_listening (dv : List (Handle × Nat)) (s : ServerState) :
    (deliverCloses s dv).1.listening = s.listening := by
  induction dv generalizing s with
  | nil => rfl
  | cons d rest ih =>
    show (deliverCloses (onClose s d.1 d.2).1 rest).1.listening = s.listening
    rw [ih]
    rfl

/-- C5: whenever Stop() returns after a run in which the server was
listening, the session table is empty — so any subsequent broadcast task
iterates nothing and performs no sends — and its trace shows the broadcast
worker pool drained (waitForDone) and the poll loop observing the empty
table strictly before the I/O thread is joined. -/
theorem C5_stop_drained (s : ServerState) (pe ce : Handle → Option String)
    (dv : List (Handle × Nat)) (s2 : ServerState) (tr : List ServerAction)
    (hlisten : s.listening = true)
    (hret : stop s pe ce dv = some (s2, tr)) :
    s2.sessions = [] ∧
    (∀ ri et ed se, broadcastEventTask s2.sessions ri et ed se = []) ∧
    (∃ pre mid, tr = pre ++ ServerAction.waitForDone :: mid ++
      [ServerAction.pollObservedEmptyTable, ServerAction.joinThread]) := by
  unfold stop at hret
  rw [hlisten] at hret
  simp only [Bool.not_true, Bool.false_eq_true, if_false] at hret
  by_cases hempty :
      (deliverCloses { s with listening := false } dv).1.sessions.isEmpty = true
  · rw [if_pos hempty] at hret
    have hpair := Option.some.inj hret
    have hs2 : s2 = (deliverCloses { s with listening := false } dv).1 :=
      (congrArg Prod.fst hpair).symm
    have htr : tr = ServerAction.stopListening ::
        ({ s with listening := false } : ServerState).sessions.flatMap
          (stopCloseActions pe ce) ++
        ServerAction.waitForDone :: (deliverCloses { s with listening := false } dv).2 ++
        [ServerAction.pollObservedEmptyTable, ServerAction.joinThread] :=
      (congrArg Prod.snd hpair).symm
    have hsess : s2.sessions = [] := by
      rw [hs2]
      exact List.isEmpty_iff.mp hempty
    refine ⟨hsess, ?_, ?_⟩
    · intro ri et ed se
      rw [hsess]
      rfl
    · refine ⟨ServerAction.stopListening ::
        ({ s with listening := false } : ServerState).sessions.flatMap
          (stopCloseActions pe ce),
        (deliverCloses { s with listening := false } dv).2, ?_⟩
      rw [htr]
  · rw [if_neg hempty] at hret
    cases hret

/-- Witness for C5: stopping a concrete listening one-session server whose
close is delivered during the drain poll. -/
theorem C5_stop_drained_witness :
    baseState.listening = true ∧
    ∃ s2 tr, stop baseState (fun _ => none) (fun _ => none) [(1, 1001)] = some (s2, tr) ∧
      (s2.sessions = [] ∧
       (∀ ri et ed se, broadcastEventTask s2.sessions ri et ed se = []) ∧
       (∃ pre mid, tr = pre ++ ServerAction.waitForDone :: mid ++
         [ServerAction.pollObservedEmptyTable, ServerAction.joinThread])) :=
  ⟨rfl, _, _, rfl,
   C5_stop_drained baseState (fun _ => none) (fun _ => none) [(1, 1001)] _ _ rfl rfl⟩

/-- C6: a second Stop() call right after one that tore the server down finds
the server no longer listening, so it only logs a warning, changes no state,
and returns. -/
theorem C6_stop_idempotent (s : ServerState) (pe ce pe2 ce2 : Handle → Option String)
    (dv dv2 : List (Handle × Nat)) (s2 : ServerState) (tr : List ServerAction)
    (hlisten : s.listening = true)
    (hret : stop s pe ce dv = some (s2, tr)) :
    s2.listening = false ∧
    stop s2 pe2 ce2 dv2 =
      some (s2, [ServerAction.logWarning "Call to Stop() but the server is not listening."]) := by
  have hl : s2.listening = false := by
    unfold stop at hret
    rw [hlisten] at hret
    simp only [Bool.not_true, Bool.false_eq_true, if_false] at hret
    by_cases hempty :
        (deliverCloses { s with listening := false } dv).1.sessions.isEmpty = true
    · rw [if_pos hempty] at hret
      have hpair := Option.some.inj hret
      have hs2 : s2 = (deliverCloses { s with listening := false } dv).1 :=
        (congrArg Prod.fst hpair).symm
      rw [hs2, deliverCloses_listening]
    · rw [if_neg hempty] at hret
      cases hret
  refine ⟨hl, ?_⟩
  unfold stop
  rw [hl]
  rfl

/-- Witness for C6: stopping the concrete one-session server twice. -/
theorem C6_stop_idempotent_witness :
    baseState.listening = true ∧
    ∃ s2 tr, stop baseState (fun _ => none) (fun _ => none) [(1, 1001)] = some (s2, tr) ∧
      (s2.listening = false ∧
       stop s2 (fun _ => none) (fun _ => none) [] =
         some (s2, [ServerAction.logWarning
           "Call to Stop() but the server is not listening."])) :=
  ⟨rfl, _, _, rfl,
   C6_stop_idempotent baseState (fun _ => none) (fun _ => none) (fun _ => none) (fun _ => none)
     [(1, 1001)] [] _ _ rfl rfl⟩

/-- The greeting half of onOpen: it stores exactly one session under the
handle, preserving the negotiated encoding, and sends exactly one Hello
envelope — with protocol and rpc versions, and with (challenge, salt)
authentication data iff auth is required — as a text frame for Json and a
binary frame for MsgPack. -/
theorem onOpenGreet_spec (s : ServerState) (hdl : Handle) (session : Session)
    (ch : String) :
    ∃ hm : HelloMessage, ∃ sess : Session,
      lookupTable (onOpenGreet s hdl session ch).1.sessions hdl = some sess ∧
      sess.encoding = session.encoding ∧
      hm.obsWebSocketVersion = OBS_WEBSOCKET_VERSION ∧
      hm.rpcVersion = OBS_WEBSOCKET_RPC_VERSION ∧
      (s.authenticationRequired = true → hm.authentication = some (ch, s.authenticationSalt)) ∧
      (s.authenticationRequired = false → hm.authentication = none) ∧
      (onOpenGreet s hdl session ch).2 =
        [match sess.encoding with
         | .Json => ServerAction.send hdl (Payload.jsonText (.hello hm)) Opcode.text
         | .MsgPack => ServerAction.send hdl (Payload.msgPackBinary (.hello hm)) Opcode.binary] := by
  cases hauth : s.authenticationRequired with
  | false =>
    refine ⟨⟨OBS_WEBSOCKET_VERSION, OBS_WEBSOCKET_RPC_VERSION, none⟩, session, ?_, rfl, rfl, rfl,
      fun h => Bool.noConfusion h, fun _ => rfl, ?_⟩
    · unfold onOpenGreet
      rw [hauth]
      simp only [Bool.false_eq_true, if_false]
      exact lookupTable_setTable_self s.sessions hdl session
    · unfold onOpenGreet
      rw [hauth]
      rfl
  | true =>
    refine ⟨⟨OBS_WEBSOCKET_VERSION, OBS_WEBSOCKET_RPC_VERSION, some (ch, s.authenticationSalt)⟩,
      { session with challenge := some ch }, ?_, rfl, rfl, rfl, fun _ => rfl,
      fun h => Bool.noConfusion h, ?_⟩
    · unfold onOpenGreet
      rw [hauth]
      simp only [if_true]
      exact lookupTable_setTable_self s.sessions hdl _
    · unfold onOpenGreet
      rw [hauth]
      rfl

/-- C7: for every successfully negotiated connection (Content-Type absent,
json, or msgpack), onOpen sends exactly one Hello greeting — a text frame
with json payload when the stored session's encoding is Json, a binary frame
with msgpack payload when it is MsgPack (Json for a json or absent header,
MsgPack for a msgpack header) — containing obsWebSocketVersion and
rpcVersion, and an authentication object (challenge, salt) iff
authentication is required. -/
theorem C7_hello_greeting (s : ServerState) (hdl : Handle) (ep : String) (now : Nat)
    (ct ch : String)
    (hct : ct = "" ∨ ct = "application/json" ∨ ct = "application/msgpack") :
    ∃ hm : HelloMessage, ∃ sess : Session,
      lookupTable (onOpen s hdl ep now ct ch).1.sessions hdl = some sess ∧
      (ct = "application/json" → sess.encoding = .Json) ∧
      (ct = "application/msgpack" → sess.encoding = .MsgPack) ∧
      hm.obsWebSocketVersion = OBS_WEBSOCKET_VERSION ∧
      hm.rpcVersion = OBS_WEBSOCKET_RPC_VERSION ∧
      (s.authenticationRequired = true → hm.authentication = some (ch, s.authenticationSalt)) ∧
      (s.authenticationRequired = false → hm.authentication = none) ∧
      (onOpen s hdl ep now ct ch).2 =
        [match sess.encoding with
         | .Json => ServerAction.send hdl (Payload.jsonText (.hello hm)) Opcode.text
         | .MsgPack => ServerAction.send hdl (Payload.msgPackBinary (.hello hm)) Opcode.binary] := by
  rcases hct with hct | hct | hct <;> subst hct
  · have hopen : onOpen s hdl ep now "" ch =
        onOpenGreet s hdl
          { (lookupTable s.sessions hdl).getD Session.mkDefault with
            remoteAddress := ep, connectedAt := now } ch := rfl
    obtain ⟨hm, sess, h1, h2, h3, h4, h5, h6, h7⟩ := onOpenGreet_spec s hdl
      { (lookupTable s.sessions hdl).getD Session.mkDefault with
        remoteAddress := ep, connectedAt := now } ch
    exact ⟨hm, sess, by rw [hopen]; exact h1,
      fun h => absurd h (by decide), fun h => absurd h (by decide),
      h3, h4, h5, h6, by rw [hopen]; exact h7⟩
  · have hopen : onOpen s hdl ep now "application/json" ch =
        onOpenGreet s hdl
          { (lookupTable s.sessions hdl).getD Session.mkDefault with
            remoteAddress := ep, connectedAt := now, encoding := .Json } ch := rfl
    obtain ⟨hm, sess, h1, h2, h3, h4, h5, h6, h7⟩ := onOpenGreet_spec s hdl
      { (lookupTable s.sessions hdl).getD Session.mkDefault with
        remoteAddress := ep, connectedAt := now, encoding := .Json } ch
    exact ⟨hm, sess, by rw [hopen]; exact h1,
      fun _ => h2, fun h => absurd h (by decide),
      h3, h4, h5, h6, by rw [hopen]; exact h7⟩
  · have hopen : onOpen s hdl ep now "application/msgpack" ch =
        onOpenGreet s hdl
          { (lookupTable s.sessions hdl).getD Session.mkDefault with
            remoteAddress := ep, connectedAt := now, encoding := .MsgPack } ch := rfl
    obtain ⟨hm, sess, h1, h2, h3, h4, h5, h6, h7⟩ := onOpenGreet_spec s hdl
      { (lookupTable s.sessions hdl).getD Session.mkDefault with
        remoteAddress := ep, connectedAt := now, encoding := .MsgPack } ch
    exact ⟨hm, sess, by rw [hopen]; exact h1,
      fun h => absurd h (by decide), fun _ => h2,
      h3, h4, h5, h6, by rw [hopen]; exact h7⟩

/-- Witness for C7: a concrete msgpack connection to the auth-required
server. -/
theorem C7_hello_greeting_witness :
    (("application/msgpack" : String) = "" ∨
      ("application/msgpack" : String) = "application/json" ∨
      ("application/msgpack" : String) = "application/msgpack") ∧
    (∃ hm : HelloMessage, ∃ sess : Session,
      lookupTable (onOpen emptyState 3 "192.168.0.7" 21 "application/msgpack" "chal").1.sessions
        3 = some sess ∧
      (("application/msgpack" : String) = "application/json" → sess.encoding = .Json) ∧
      (("application/msgpack" : String) = "application/msgpack" → sess.encoding = .MsgPack) ∧
      hm.obsWebSocketVersion = OBS_WEBSOCKET_VERSION ∧
      hm.rpcVersion = OBS_WEBSOCKET_RPC_VERSION ∧
      (emptyState.authenticationRequired = true →
        hm.authentication = some ("chal", emptyState.authenticationSalt)) ∧
      (emptyState.authenticationRequired = false → hm.authentication = none) ∧
      (onOpen emptyState 3 "192.168.0.7" 21 "application/msgpack" "chal").2 =
        [match sess.encoding with
         | .Json => ServerAction.send 3 (Payload.jsonText (.hello hm)) Opcode.text
         | .MsgPack => ServerAction.send 3 (Payload.msgPackBinary (.hello hm)) Opcode.binary]) :=
  ⟨Or.inr (Or.inr rfl),
   C7_hello_greeting emptyState 3 "192.168.0.7" 21 "application/msgpack" "chal"
     (Or.inr (Or.inr rfl))⟩

/-- C9: the connect string over the discovered local address is
"obswebsocket|<ip>:<port>" — with no password segment — when authentication
is disabled, and exactly that same string extended by the "|<password>"
segment when authentication is enabled. -/
theorem C9_connect_string (s : ServerState) (addrs : List QHostAddress) :
    getConnectString s (getLocalAddress addrs) =
      (if s.authenticationRequired then
        "obswebsocket|" ++ getLocalAddress addrs ++ ":" ++ toString s.serverPort ++
          "|" ++ s.serverPassword
      else
        "obswebsocket|" ++ getLocalAddress addrs ++ ":" ++ toString s.serverPort) ∧
    getConnectString { s with authenticationRequired := true } (getLocalAddress addrs) =
      getConnectString { s with authenticationRequired := false } (getLocalAddress addrs) ++
        "|" ++ s.serverPassword := by
  refine ⟨?_, rfl⟩
  by_cases h : s.authenticationRequired = true <;> simp [getConnectString, h]
